import Mathlib

/-!
Verification development for the face-normalization / weighted-Gaussian
image-processing core (bob.ip.base excerpt).

The development shallowly embeds two source files:
  * `src/bob/ip/base/face_eyes_norm.cpp` — the Python binding of the
    `FaceEyesNorm` class (argument dispatch of `extract`, rich comparison,
    constructor dispatch);
  * `src/unnamed/part_000` — the `WeightedGaussian` C++ header (setters,
    the 3D `filter` template, configuration state).

C++ `double` values are modelled as real numbers; machine behaviour that the
claims quantify over (argument counts, element-type tags, array ranks) is
modelled by explicit enumerations.  Bodies of repository functions that are
not part of the provided sources (the `FaceEyesNorm` C++ core, the
`computeKernel` body, the 2D `filter_` core) are modelled from the
specification text; each such definition carries a doc comment starting with
`Modelled from the spec:`.
-/

namespace BobIpBase

/-- Points in image coordinates, as (y, x) pairs of reals
(`blitz::TinyVector<double,2>` in the sources). -/
abbrev Pt := ℝ × ℝ

/-- Border extrapolation policies (`bob::sp::Extrapolation::BorderType`,
referenced by `src/unnamed/part_000`). -/
inductive BorderType
  | Zero
  | NearestNeighbour
  | Circular
  | Mirror
deriving DecidableEq, Repr

/-- Numpy element-type tags relevant to the binding dispatch in
`src/bob/ip/base/face_eyes_norm.cpp` (lines 449-457): the three supported
types, the boolean type used for masks, and a sample of other type tags. -/
inductive NpyType
  | uint8
  | uint16
  | float64
  | npBool
  | int8
  | int16
  | int32
  | int64
  | uint32
  | uint64
  | float32
deriving DecidableEq, Repr

/-- The part of a `PyBlitzArrayObject` the `extract` binding inspects:
number of dimensions, element-type tag, and shape. -/
structure PyArray where
  ndim : ℕ
  typeNum : NpyType
  shape : List ℕ
deriving DecidableEq, Repr

/-- Four-quadrant arctangent (C `atan2`), defined by cases on the sign of
the second argument; used by the spec-modelled landmark geometry. -/
noncomputable def atan2 (y x : ℝ) : ℝ :=
  if 0 < x then Real.arctan (y / x)
  else if x < 0 then
    (if 0 ≤ y then Real.arctan (y / x) + Real.pi else Real.arctan (y / x) - Real.pi)
  else
    (if 0 < y then Real.pi / 2 else if y < 0 then -(Real.pi / 2) else 0)

/-- The state of a `FaceEyesNorm` object: the configured target values
(crop size, eyes distance, eyes angle, crop offset) and the last-applied
transformation parameters (`last_angle`, `last_scale`, `last_offset`),
per spec section 4.1 and the getters bound in
`src/bob/ip/base/face_eyes_norm.cpp` (lines 135-264). -/
structure FaceEyesNorm where
  cropSize : ℤ × ℤ
  eyesDistance : ℝ
  eyesAngle : ℝ
  cropOffset : Pt
  lastAngle : ℝ
  lastScale : ℝ
  lastOffset : Pt

/-- Modelled from the spec: the `(crop_size, eyes_distance, eyes_center)`
constructor of the C++ `FaceEyesNorm` class, whose body is not under `src/`
(the binding at `face_eyes_norm.cpp` lines 81-90 merely forwards to it).
Per spec section 4.1 form 1, the target eyes are placed symmetrically about
`eyes_center`, `eyes_distance` apart, on a horizontal line (angle 0), and
the crop offset (transformation center) is the eye center.  The last-applied
parameters start at zero. -/
def fromDistanceCenter (size : ℤ × ℤ) (dist : ℝ) (center : Pt) : FaceEyesNorm :=
  { cropSize := size
    eyesDistance := dist
    eyesAngle := 0
    cropOffset := center
    lastAngle := 0
    lastScale := 0
    lastOffset := (0, 0) }

/-- Modelled from the spec: the `(crop_size, right_eye, left_eye)`
constructor of the C++ `FaceEyesNorm` class, whose body is not under `src/`
(the binding at `face_eyes_norm.cpp` lines 69-79 merely forwards to it).
Per spec section 4.1: `eyes_distance` is the Euclidean distance between the
two targets, `eyes_center` (stored as the crop offset) is their midpoint,
and `eyes_angle` is the angle of the eye line relative to the horizontal,
oriented so that the canonical arrangement (right eye at the smaller column,
both on one row) yields angle 0 — the orientation forced by the spec's own
equality test property in section 8. -/
noncomputable def fromTwoPoints (size : ℤ × ℤ) (r l : Pt) : FaceEyesNorm :=
  { cropSize := size
    eyesDistance := Real.sqrt ((l.1 - r.1) ^ 2 + (l.2 - r.2) ^ 2)
    eyesAngle := atan2 (l.1 - r.1) (l.2 - r.2)
    cropOffset := ((r.1 + l.1) / 2, (r.2 + l.2) / 2)
    lastAngle := 0
    lastScale := 0
    lastOffset := (0, 0) }

/-- Modelled from the spec: `FaceEyesNorm::operator==`, whose body is not
under `src/` (the binding's rich comparison at `face_eyes_norm.cpp` lines
111-129 calls it).  Per spec section 4.1: two instances compare equal iff
their configured crop size, eyes distance, eyes angle and crop offset are
pairwise equal; the last-applied state is excluded. -/
def feq (a b : FaceEyesNorm) : Prop :=
  a.cropSize = b.cropSize ∧ a.eyesDistance = b.eyesDistance ∧
  a.eyesAngle = b.eyesAngle ∧ a.cropOffset = b.cropOffset

/-- Failures of the C++ `FaceEyesNorm::extract` core: degenerate landmarks
(spec section 4.1) and shape disagreement of supplied buffers with their
required shapes (spec section 7, `ShapeMismatchError`). -/
inductive InnerError
  | degenerateLandmarks
  | shapeMismatch
deriving DecidableEq, Repr

/-- Modelled from the spec: the parameter derivation of the C++
`FaceEyesNorm::extract` core, whose body is not under `src/`.  Per spec
section 4.1: the observed distance is the Euclidean distance of the
landmarks; the call fails with `DegenerateLandmarksError` when it is zero
or non-finite (over the real-number model, exactly when the squared
distance is zero); otherwise rotation, scale and source center are derived
and recorded as the last-applied parameters.  The delegation to the
`GeomNorm` resampler (a collaborator, spec section 4.2) writes the pixels
of the output buffer and does not touch the state. -/
noncomputable def alignParams (s : FaceEyesNorm) (r l : Pt) :
    Except InnerError FaceEyesNorm :=
  let dy := l.1 - r.1
  let dx := l.2 - r.2
  if dy ^ 2 + dx ^ 2 = 0 then .error .degenerateLandmarks
  else
    .ok { s with
      lastAngle := s.eyesAngle - atan2 dy dx
      lastScale := s.eyesDistance / Real.sqrt (dy ^ 2 + dx ^ 2)
      lastOffset := ((r.1 + l.1) / 2, (r.2 + l.2) / 2) }

/-- The three calling conventions of the `extract` binding
(`face_eyes_norm.cpp` lines 363-404): `(input, right_eye, left_eye)`,
`(input, output, right_eye, left_eye)`, and
`(input, input_mask, output, output_mask, right_eye, left_eye)`. -/
inductive ExtractArgs
  | noOutput (input : PyArray) (r l : Pt)
  | withOutput (input output : PyArray) (r l : Pt)
  | withMasks (input inputMask output outputMask : PyArray) (r l : Pt)

/-- The error exits of the `extract` binding, in source order
(`face_eyes_norm.cpp` lines 375-457). -/
inductive ExtractError
  | wrongNumberOfArgs
  | argumentParseFailure
  | inputNot2D
  | outputNot2D
  | outputNotFloat64
  | maskNot2D
  | maskNotBool
  | unsupportedElementType
  | innerFailure (e : InnerError)
deriving DecidableEq, Repr

/-- What a successful `extract` binding call hands back to Python:
either a freshly allocated array (the `nargs == 3` return at lines 459-461,
unreachable in the code as written, see `extractModel`) or `None`
(line 463). -/
inductive ExtractOutcome
  | returnedNewArray (a : PyArray)
  | returnedNone
deriving DecidableEq, Repr

/-- Modelled from the spec: the shape precondition on a supplied output
buffer — it must match the configured crop size (spec section 4.1:
"optional pre-allocated `output` (must match configured crop_size,
float64)").  The crop size is stored as a pair of ints, the array shape as
a list of naturals. -/
def matchesCropSize (s : FaceEyesNorm) (a : PyArray) : Prop :=
  a.shape.map (fun n => (n : ℤ)) = [s.cropSize.1, s.cropSize.2]

instance (s : FaceEyesNorm) : DecidablePred (matchesCropSize s) := fun a => by
  unfold matchesCropSize; infer_instance

/-- Modelled from the spec: the C++ core
`FaceEyesNorm::extract(input, output, right, left)`, whose body is not
under `src/`.  Per spec sections 4.1 and 7, all shape preconditions are
validated before any output is written — the supplied output buffer must
match the configured crop size, failing with `ShapeMismatchError`
otherwise — after which the landmark parameters are derived
(`DegenerateLandmarksError` on a degenerate pair) and the resampler fills
the buffer. -/
noncomputable def coreExtract (s : FaceEyesNorm) (output : PyArray) (r l : Pt) :
    Except InnerError FaceEyesNorm :=
  if ¬ matchesCropSize s output then .error .shapeMismatch
  else alignParams s r l

/-- Modelled from the spec: the C++ core
`FaceEyesNorm::extract(input, input_mask, output, output_mask, right,
left)`, whose body is not under `src/`.  In addition to the output-buffer
check of `coreExtract`, the input mask must match the input's shape and the
output mask the output's shape (spec sections 4.1 and 7), all validated
before any write. -/
noncomputable def coreExtractMasked (s : FaceEyesNorm)
    (input imask output omask : PyArray) (r l : Pt) :
    Except InnerError FaceEyesNorm :=
  if ¬ (imask.shape = input.shape) then .error .shapeMismatch
  else if ¬ (omask.shape = output.shape) then .error .shapeMismatch
  else if ¬ matchesCropSize s output then .error .shapeMismatch
  else alignParams s r l

/-- The return convention of `extract_inner`
(`face_eyes_norm.cpp` lines 354-361) followed by the `Py_RETURN_NONE` tail:
a C++ exception of the core becomes a Python error via the `CATCH` wrapper;
on success the output buffer has been filled in place, `None` is returned,
and the updated object state is kept. -/
def pyWrap (res : Except InnerError FaceEyesNorm) :
    Except ExtractError (ExtractOutcome × FaceEyesNorm) :=
  match res with
  | .error e => .error (.innerFailure e)
  | .ok s2 => .ok (.returnedNone, s2)

/-- Whether the element type of `input` is one of the three supported cases
of the dispatch switch (`face_eyes_norm.cpp` lines 449-457). -/
def supportedType (t : NpyType) : Prop :=
  t = .uint8 ∨ t = .uint16 ∨ t = .float64

instance : DecidablePred supportedType := fun t => by
  unfold supportedType; infer_instance

/-- Shallow embedding of `PyBobIpBaseFaceEyesNorm_extract`
(`face_eyes_norm.cpp` lines 363-467).

The `nargs == 3` switch case (lines 376-382) parses
`(input, right_eye, left_eye)` and then, lacking a `break`, falls through
into the `nargs == 4` parse (lines 383-390), which requires four arguments
and therefore always fails on a three-argument call: the call returns 0
with a TypeError set.  Consequently the fresh-output allocation (lines
427-433) and the `nargs == 3` return of the new array (lines 459-461) are
unreachable, and the three-argument form is modelled as always failing.

The remaining forms proceed through the checks in source order: input must
be 2D (line 409), a supplied output must be 2D of type float64 (lines
415-426), masks must be 2D and boolean (lines 435-446), and the element
type of the input must be one of uint8/uint16/float64 (lines 449-457),
after which `extract_inner` runs and `None` is returned (line 463). -/
noncomputable def extractModel (s : FaceEyesNorm) (call : ExtractArgs) :
    Except ExtractError (ExtractOutcome × FaceEyesNorm) :=
  match call with
  | .noOutput _ _ _ =>
      -- fall-through of `case 3` into the four-argument parse: always fails
      .error .argumentParseFailure
  | .withOutput input output r l =>
      if input.ndim ≠ 2 then .error .inputNot2D
      else if output.ndim ≠ 2 then .error .outputNot2D
      else if output.typeNum ≠ .float64 then .error .outputNotFloat64
      else if supportedType input.typeNum then pyWrap (coreExtract s output r l)
      else .error .unsupportedElementType
  | .withMasks input imask output omask r l =>
      if input.ndim ≠ 2 then .error .inputNot2D
      else if output.ndim ≠ 2 then .error .outputNot2D
      else if output.typeNum ≠ .float64 then .error .outputNotFloat64
      else if imask.ndim ≠ 2 ∨ omask.ndim ≠ 2 then .error .maskNot2D
      else if imask.typeNum ≠ .npBool ∨ omask.typeNum ≠ .npBool then .error .maskNotBool
      else if supportedType input.typeNum then
        pyWrap (coreExtractMasked s input imask output omask r l)
      else .error .unsupportedElementType

/-- A Python object as seen by the rich-comparison slot: either a
`FaceEyesNorm` instance or some foreign object. -/
inductive PyObj
  | fenObj (f : FaceEyesNorm)
  | otherObj (tag : ℕ)

/-- Python rich-comparison operators. -/
inductive CompOp
  | opEq
  | opNe
  | opLt
  | opLe
  | opGt
  | opGe
deriving DecidableEq, Repr

/-- Results a rich-comparison slot can hand back to Python. -/
inductive RichCmpResult
  | resTrue
  | resFalse
  | resNotImplemented
deriving DecidableEq, Repr

/-- Python-level errors raised by the rich comparison. -/
inductive PyErr
  | typeError
deriving DecidableEq, Repr

open Classical in
/-- Shallow embedding of `PyBobIpBaseFaceEyesNorm_RichCompare`
(`face_eyes_norm.cpp` lines 111-129): any object that is not a
`FaceEyesNorm` instance is rejected with a TypeError before the operator is
inspected; for instances, `==` and `!=` evaluate `operator==` on the C++
objects, and every other operator yields `NotImplemented`. -/
noncomputable def richCompare (self : FaceEyesNorm) (other : PyObj) (op : CompOp) :
    Except PyErr RichCmpResult :=
  match other with
  | .otherObj _ => .error .typeError
  | .fenObj o =>
    match op with
    | .opEq => if feq self o then .ok .resTrue else .ok .resFalse
    | .opNe => if feq self o then .ok .resFalse else .ok .resTrue
    | _ => .ok .resNotImplemented

/-- Modelled from the spec: the unnormalized Gaussian entry
`exp(-(i^2/(2*sigma_y^2) + j^2/(2*sigma_x^2)))` of the base kernel
built by `WeightedGaussian::computeKernel`, whose body is not under `src/`
(only its declaration on line 143 of `src/unnamed/part_000` and the spec's
formula in section 4.3 are available). -/
noncomputable def gaussUnnormalized (sy sx : ℝ) (i j : ℤ) : ℝ :=
  Real.exp (-((i : ℝ) ^ 2 / (2 * sy ^ 2) + (j : ℝ) ^ 2 / (2 * sx ^ 2)))

/-- Modelled from the spec: the sum of all unnormalized entries of the base
kernel over the grid `i ∈ [-radius_y, radius_y]`, `j ∈ [-radius_x, radius_x]`,
used by `computeKernel` as the normalization constant. -/
noncomputable def gaussKernelSum (ry rx : ℕ) (sy sx : ℝ) : ℝ :=
  ∑ i ∈ Finset.Icc (-(ry : ℤ)) (ry : ℤ),
    ∑ j ∈ Finset.Icc (-(rx : ℤ)) (rx : ℤ), gaussUnnormalized sy sx i j

/-- Modelled from the spec: `WeightedGaussian::computeKernel`
(declared on line 143 of `src/unnamed/part_000`, body not under `src/`):
the base kernel entry at offset `(i, j)` is the unnormalized Gaussian
divided by the sum of the whole grid, so that the grid sums to 1
(spec section 4.3).  The entries are modelled as a function on offsets;
the grid extent `(2*radius_y+1) x (2*radius_x+1)` is carried by the radii. -/
noncomputable def computeKernel (ry rx : ℕ) (sy sx : ℝ) : ℤ → ℤ → ℝ :=
  fun i j => gaussUnnormalized sy sx i j / gaussKernelSum ry rx sy sx

/-- Configuration and kernel state of a `WeightedGaussian`
(`src/unnamed/part_000` lines 142-158): radii, sigmas, border type, and the
stored base (unweighted) kernel `m_kernel`. -/
structure WeightedGaussian where
  radius_y : ℕ
  radius_x : ℕ
  sigma_y : ℝ
  sigma_x : ℝ
  conv_border : BorderType
  kernel : ℤ → ℤ → ℝ

/-- `WeightedGaussian::setRadiusY` (`src/unnamed/part_000` line 96):
store the new radius, then recompute the kernel from the current fields. -/
noncomputable def setRadiusY (s : WeightedGaussian) (v : ℕ) : WeightedGaussian :=
  { s with radius_y := v, kernel := computeKernel v s.radius_x s.sigma_y s.sigma_x }

/-- `WeightedGaussian::setRadiusX` (`src/unnamed/part_000` line 97). -/
noncomputable def setRadiusX (s : WeightedGaussian) (v : ℕ) : WeightedGaussian :=
  { s with radius_x := v, kernel := computeKernel s.radius_y v s.sigma_y s.sigma_x }

/-- `WeightedGaussian::setRadius` (`src/unnamed/part_000` line 98):
store both radii, then recompute the kernel once. -/
noncomputable def setRadius (s : WeightedGaussian) (p : ℕ × ℕ) : WeightedGaussian :=
  { s with radius_y := p.1, radius_x := p.2,
           kernel := computeKernel p.1 p.2 s.sigma_y s.sigma_x }

/-- `WeightedGaussian::setSigmaY` (`src/unnamed/part_000` line 99):
store the new sigma unconditionally (no validation), then recompute. -/
noncomputable def setSigmaY (s : WeightedGaussian) (v : ℝ) : WeightedGaussian :=
  { s with sigma_y := v, kernel := computeKernel s.radius_y s.radius_x v s.sigma_x }

/-- `WeightedGaussian::setSigmaX` (`src/unnamed/part_000` line 100). -/
noncomputable def setSigmaX (s : WeightedGaussian) (v : ℝ) : WeightedGaussian :=
  { s with sigma_x := v, kernel := computeKernel s.radius_y s.radius_x s.sigma_y v }

/-- `WeightedGaussian::setSigma` (`src/unnamed/part_000` line 101):
store both sigmas unconditionally, then recompute the kernel once. -/
noncomputable def setSigma (s : WeightedGaussian) (q : ℝ × ℝ) : WeightedGaussian :=
  { s with sigma_y := q.1, sigma_x := q.2,
           kernel := computeKernel s.radius_y s.radius_x q.1 q.2 }

/-- `WeightedGaussian::setConvBorder` (`src/unnamed/part_000` line 102):
store the new border type; the stored kernel is not recomputed. -/
def setConvBorder (s : WeightedGaussian) (b : BorderType) : WeightedGaussian :=
  { s with conv_border := b }

/-- A `WeightedGaussian` built with the default constructor arguments
(`src/unnamed/part_000` lines 38-42): radii 1, sigmas `sqrt 2`, Mirror
border.  Modelled from the spec: the constructor body is not under `src/`;
per spec section 4.3 it stores the parameters and computes the kernel. -/
noncomputable def wgDefault : WeightedGaussian :=
  { radius_y := 1
    radius_x := 1
    sigma_y := Real.sqrt 2
    sigma_x := Real.sqrt 2
    conv_border := .Mirror
    kernel := computeKernel 1 1 (Real.sqrt 2) (Real.sqrt 2) }

/-- A 2D image as the `filter` templates see it: a shape plus pixel data
(`blitz::Array<double,2>` after the documented cast to double). -/
structure Img2 where
  rows : ℕ
  cols : ℕ
  data : ℕ → ℕ → ℝ

/-- A 3D stacked-plane image (`blitz::Array<double,3>`, outer axis = plane
index). -/
structure Img3 where
  planes : ℕ
  rows : ℕ
  cols : ℕ
  data : ℕ → ℕ → ℕ → ℝ

/-- The plane slice `a(p, Range::all(), Range::all())` taken by the 3D
`filter` overload (`src/unnamed/part_000` lines 135-136). -/
def slicePlane (a : Img3) (p : ℕ) : Img2 :=
  ⟨a.rows, a.cols, a.data p⟩

/-- Writing a 2D result into plane `p` of a 3D array (the in-place write
through the `dst_slice` reference in `src/unnamed/part_000` line 136). -/
def setPlane (a : Img3) (p : ℕ) (img : Img2) : Img3 :=
  { a with data := fun q y x => if q = p then img.data y x else a.data q y x }

/-- The plane loop of the 3D `filter` overload
(`src/unnamed/part_000` lines 134-139): planes `0, ..., n-1` are filtered in
order, each written into the destination.  The 2D core `filter_` is
implemented outside the provided sources, so the per-plane transform is a
parameter `core` (the `filter<T,2>` wrapper casts to double first, which is
the identity in the real-number model). -/
def writePlanes (core : Img2 → Img2) (src : Img3) : ℕ → Img3 → Img3
  | 0, dst => dst
  | n + 1, dst => setPlane (writePlanes core src n dst) n (core (slicePlane src n))

/-- Failure of the 3D `filter` overload. -/
inductive FilterError
  | shapeMismatch
deriving DecidableEq, Repr

/-- Shallow embedding of `WeightedGaussian::filter<T,3>`
(`src/unnamed/part_000` lines 130-140): `assertSameDimensionLength` checks
the plane counts of source and destination before the loop and throws a
shape-mismatch error when they differ; otherwise every plane is filtered
independently with the 2D filter. -/
def filter3 (core : Img2 → Img2) (src dst : Img3) : Except FilterError Img3 :=
  if src.planes = dst.planes then .ok (writePlanes core src dst.planes dst)
  else .error .shapeMismatch

/-! ## Helper lemmas -/

/-- A successful parameter derivation only updates the last-applied fields;
the configured target values are untouched. -/
theorem alignParams_config (s s2 : FaceEyesNorm) (r l : Pt)
    (h : alignParams s r l = .ok s2) :
    s2.cropSize = s.cropSize ∧ s2.eyesDistance = s.eyesDistance ∧
    s2.eyesAngle = s.eyesAngle ∧ s2.cropOffset = s.cropOffset := by
  simp only [alignParams] at h
  split at h
  · exact Except.noConfusion h
  · injection h with h
    subst h
    exact ⟨rfl, rfl, rfl, rfl⟩

/-- A successful output-supplying `extract` call goes through the wrapped
core call. -/
theorem extractModel_withOutput_ok (s : FaceEyesNorm) (i o : PyArray) (r l : Pt)
    (res : ExtractOutcome × FaceEyesNorm)
    (h : extractModel s (.withOutput i o r l) = .ok res) :
    pyWrap (coreExtract s o r l) = .ok res := by
  simp only [extractModel] at h
  split_ifs at h
  all_goals first
    | exact Except.noConfusion h
    | exact h

/-- A successful mask-supplying `extract` call goes through the wrapped
core call. -/
theorem extractModel_withMasks_ok (s : FaceEyesNorm) (i im o om : PyArray) (r l : Pt)
    (res : ExtractOutcome × FaceEyesNorm)
    (h : extractModel s (.withMasks i im o om r l) = .ok res) :
    pyWrap (coreExtractMasked s i im o om r l) = .ok res := by
  simp only [extractModel] at h
  split_ifs at h
  all_goals first
    | exact Except.noConfusion h
    | exact h

/-- A successful wrapped call reflects a successful core call returning
`None`. -/
theorem pyWrap_ok (res : Except InnerError FaceEyesNorm) (out : ExtractOutcome)
    (s2 : FaceEyesNorm) (h : pyWrap res = .ok (out, s2)) : res = .ok s2 := by
  cases res with
  | error e => exact Except.noConfusion h
  | ok s3 =>
    injection h with h
    cases h
    rfl

/-- A successful unmasked core call reflects a successful parameter
derivation. -/
theorem coreExtract_ok (s : FaceEyesNorm) (o : PyArray) (r l : Pt)
    (s2 : FaceEyesNorm) (h : coreExtract s o r l = .ok s2) :
    alignParams s r l = .ok s2 := by
  unfold coreExtract at h
  split at h
  · exact Except.noConfusion h
  · exact h

/-- A successful masked core call reflects a successful parameter
derivation. -/
theorem coreExtractMasked_ok (s : FaceEyesNorm) (i im o om : PyArray) (r l : Pt)
    (s2 : FaceEyesNorm) (h : coreExtractMasked s i im o om r l = .ok s2) :
    alignParams s r l = .ok s2 := by
  unfold coreExtractMasked at h
  split_ifs at h
  all_goals first
    | exact Except.noConfusion h
    | exact h

/-- Any successful `extract` call leaves the configured target values of the
object unchanged. -/
theorem extractModel_ok_config (s : FaceEyesNorm) (call : ExtractArgs)
    (out : ExtractOutcome) (s2 : FaceEyesNorm)
    (h : extractModel s call = .ok (out, s2)) :
    s2.cropSize = s.cropSize ∧ s2.eyesDistance = s.eyesDistance ∧
    s2.eyesAngle = s.eyesAngle ∧ s2.cropOffset = s.cropOffset := by
  cases call with
  | noOutput i r l => exact Except.noConfusion h
  | withOutput i o r l =>
    exact alignParams_config s s2 r l
      (coreExtract_ok s o r l s2
        (pyWrap_ok _ out s2 (extractModel_withOutput_ok s i o r l _ h)))
  | withMasks i im o om r l =>
    exact alignParams_config s s2 r l
      (coreExtractMasked_ok s i im o om r l s2
        (pyWrap_ok _ out s2 (extractModel_withMasks_ok s i im o om r l _ h)))

/-- The plane loop `writePlanes` computes plane `p` of the result as the
filtered source plane when `p` was visited, and keeps the destination plane
otherwise. -/
theorem writePlanes_data (core : Img2 → Img2) (src dst : Img3) (p y x : ℕ) :
    ∀ n : ℕ,
      (p < n → (writePlanes core src n dst).data p y x
          = (core (slicePlane src p)).data y x) ∧
      (n ≤ p → (writePlanes core src n dst).data p y x = dst.data p y x) := by
  intro n
  induction n with
  | zero => exact ⟨fun h => absurd h (Nat.not_lt_zero p), fun _ => rfl⟩
  | succ n ih =>
    constructor
    · intro h
      by_cases hp : p = n
      · subst hp
        simp [writePlanes, setPlane]
      · have hlt : p < n := by omega
        simpa [writePlanes, setPlane, hp] using ih.1 hlt
    · intro h
      have hp : p ≠ n := by omega
      simpa [writePlanes, setPlane, hp] using ih.2 (by omega)

/-! ## Sample data used by concrete evaluations -/

/-- A 2D uint8 input array, as accepted by the binding. -/
def sampleUint8Input : PyArray := ⟨2, .uint8, [64, 80]⟩

/-- A 2D int32 input array, an element type outside the supported set. -/
def sampleInt32Input : PyArray := ⟨2, .int32, [64, 80]⟩

/-- A 2D float64 input array. -/
def sampleF64Input : PyArray := ⟨2, .float64, [100, 100]⟩

/-- A 2D float64 output buffer of the configured crop size. -/
def sampleF64Output : PyArray := ⟨2, .float64, [64, 64]⟩

/-- A 2D boolean input mask matching the shape of `sampleF64Input`. -/
def sampleMaskIn : PyArray := ⟨2, .npBool, [100, 100]⟩

/-- A 2D boolean output mask matching the shape of `sampleF64Output`. -/
def sampleMaskOut : PyArray := ⟨2, .npBool, [64, 64]⟩

/-- The `FaceEyesNorm` configuration used by the spec's examples:
crop size 64x64, eye distance 16, eye center (16, 32). -/
def fenSample : FaceEyesNorm := fromDistanceCenter (64, 64) 16 (16, 32)

/-- The state of `fenSample` after a successful `extract` with landmarks
right = (0, 0) and left = (0, 1): rotation 0, scale 16 / 1, source center
(0, 1/2). -/
noncomputable def fenAfterSample : FaceEyesNorm :=
  { fenSample with lastAngle := 0, lastScale := 16, lastOffset := (0, 1 / 2) }

/-! ## Claim theorems -/

/-- Claim C1 (code bug): the three-argument form
`extract(input, right_eye, left_eye)` can never succeed: the `nargs == 3`
switch case of `PyBobIpBaseFaceEyesNorm_extract` lacks a `break` and falls
through into the four-argument parse, which fails on three arguments, so
the call raises a TypeError instead of returning a freshly allocated
float64 image of the configured crop size (as the claim, the function's own
prototype documentation, and the unreachable `nargs == 3` return path all
state).  Evaluated here at a concrete supported 2D uint8 input. -/
theorem C1_three_argument_extract_fails :
    extractModel fenSample (.noOutput sampleUint8Input (10, 20) (10, 40))
      = .error .argumentParseFailure := rfl

/-- Claim C2 (counterexample): in the three-argument form, an input with an
unsupported element type (int32) fails with the fall-through
argument-parse TypeError, not with the unsupported-element-type error the
claim promises; and even a supported float64 input is rejected on that
path, so the three supported types are not universally accepted. -/
theorem C2_counterexample :
    extractModel fenSample (.noOutput sampleInt32Input (10, 20) (10, 40))
        = .error .argumentParseFailure ∧
    extractModel fenSample (.noOutput sampleF64Input (10, 20) (10, 40))
        = .error .argumentParseFailure ∧
    ExtractError.argumentParseFailure ≠ ExtractError.unsupportedElementType :=
  ⟨rfl, rfl, by decide⟩

/-- Claim C2 (amended): for every `extract` call that supplies an output
buffer — the four-argument form and, given masks passing the rank and
boolean-type checks, the six-argument form — the element-type dispatch
behaves as claimed: a non-float64 output buffer is rejected first; with a
float64 output buffer, an input whose element type is not
uint8/uint16/float64 fails with the unsupported-element-type error and
nothing is written, while inputs of exactly those three types are accepted
into the core, which, for an output buffer of the configured crop size,
masks matching the input/output shapes, and non-degenerate landmarks,
fills the float64 buffer in place and returns `None`. -/
theorem C2_output_form_type_dispatch (s : FaceEyesNorm)
    (input imask output omask : PyArray) (r l : Pt)
    (hin : input.ndim = 2) (hout : output.ndim = 2) :
    ((output.typeNum ≠ .float64 →
        extractModel s (.withOutput input output r l) = .error .outputNotFloat64) ∧
     (output.typeNum = .float64 →
       (¬ supportedType input.typeNum →
          extractModel s (.withOutput input output r l)
            = .error .unsupportedElementType) ∧
       (supportedType input.typeNum → matchesCropSize s output →
        (l.1 - r.1) ^ 2 + (l.2 - r.2) ^ 2 ≠ 0 →
        ∃ s2, extractModel s (.withOutput input output r l)
            = .ok (.returnedNone, s2)))) ∧
    (imask.ndim = 2 → omask.ndim = 2 →
     imask.typeNum = .npBool → omask.typeNum = .npBool →
     ((output.typeNum ≠ .float64 →
        extractModel s (.withMasks input imask output omask r l)
          = .error .outputNotFloat64) ∧
      (output.typeNum = .float64 →
        (¬ supportedType input.typeNum →
          extractModel s (.withMasks input imask output omask r l)
            = .error .unsupportedElementType) ∧
        (supportedType input.typeNum →
         imask.shape = input.shape → omask.shape = output.shape →
         matchesCropSize s output →
         (l.1 - r.1) ^ 2 + (l.2 - r.2) ^ 2 ≠ 0 →
         ∃ s2, extractModel s (.withMasks input imask output omask r l)
            = .ok (.returnedNone, s2))))) := by
  have hndim1 : ¬(input.ndim ≠ 2) := by simp [hin]
  have hndim2 : ¬(output.ndim ≠ 2) := by simp [hout]
  constructor
  · refine ⟨?_, fun hf64 => ⟨?_, ?_⟩⟩
    · intro hne
      simp only [extractModel]
      rw [if_neg hndim1, if_neg hndim2, if_pos hne]
    · intro hnot
      simp only [extractModel]
      rw [if_neg hndim1, if_neg hndim2, if_neg (by simp [hf64]), if_neg hnot]
    · intro hsup hcrop hnz
      refine ⟨{ s with
          lastAngle := s.eyesAngle - atan2 (l.1 - r.1) (l.2 - r.2)
          lastScale := s.eyesDistance / Real.sqrt ((l.1 - r.1) ^ 2 + (l.2 - r.2) ^ 2)
          lastOffset := ((r.1 + l.1) / 2, (r.2 + l.2) / 2) }, ?_⟩
      simp only [extractModel]
      rw [if_neg hndim1, if_neg hndim2, if_neg (by simp [hf64]), if_pos hsup]
      unfold coreExtract
      rw [if_neg (not_not.mpr hcrop)]
      simp only [alignParams]
      rw [if_neg hnz]
      rfl
  · intro him hom hbt1 hbt2
    have hndim3 : ¬(imask.ndim ≠ 2 ∨ omask.ndim ≠ 2) := by simp [him, hom]
    have hbool : ¬(imask.typeNum ≠ .npBool ∨ omask.typeNum ≠ .npBool) := by
      simp [hbt1, hbt2]
    refine ⟨?_, fun hf64 => ⟨?_, ?_⟩⟩
    · intro hne
      simp only [extractModel]
      rw [if_neg hndim1, if_neg hndim2, if_pos hne]
    · intro hnot
      simp only [extractModel]
      rw [if_neg hndim1, if_neg hndim2, if_neg (by simp [hf64]), if_neg hndim3,
        if_neg hbool, if_neg hnot]
    · intro hsup hims homs hcrop hnz
      refine ⟨{ s with
          lastAngle := s.eyesAngle - atan2 (l.1 - r.1) (l.2 - r.2)
          lastScale := s.eyesDistance / Real.sqrt ((l.1 - r.1) ^ 2 + (l.2 - r.2) ^ 2)
          lastOffset := ((r.1 + l.1) / 2, (r.2 + l.2) / 2) }, ?_⟩
      simp only [extractModel]
      rw [if_neg hndim1, if_neg hndim2, if_neg (by simp [hf64]), if_neg hndim3,
        if_neg hbool, if_pos hsup]
      unfold coreExtractMasked
      rw [if_neg (not_not.mpr hims), if_neg (not_not.mpr homs),
        if_neg (not_not.mpr hcrop)]
      simp only [alignParams]
      rw [if_neg hnz]
      rfl

/-- Claim C2 (witness): the amended dispatch instantiated at concrete data:
a float64 input, a float64 output buffer of the configured crop size,
matching boolean masks, and landmarks (0,0), (0,1), for both the four- and
the six-argument form. -/
theorem C2_witness :
    sampleF64Input.ndim = 2 ∧ sampleF64Output.ndim = 2 ∧
    sampleMaskIn.ndim = 2 ∧ sampleMaskOut.ndim = 2 ∧
    sampleMaskIn.typeNum = .npBool ∧ sampleMaskOut.typeNum = .npBool ∧
    sampleF64Output.typeNum = .float64 ∧
    supportedType sampleF64Input.typeNum ∧
    sampleMaskIn.shape = sampleF64Input.shape ∧
    sampleMaskOut.shape = sampleF64Output.shape ∧
    matchesCropSize fenSample sampleF64Output ∧
    (((0 : ℝ), (1 : ℝ)).1 - ((0 : ℝ), (0 : ℝ)).1) ^ 2
        + (((0 : ℝ), (1 : ℝ)).2 - ((0 : ℝ), (0 : ℝ)).2) ^ 2 ≠ 0 ∧
    (∃ s2, extractModel fenSample
        (.withOutput sampleF64Input sampleF64Output (0, 0) (0, 1))
      = .ok (.returnedNone, s2)) ∧
    (∃ s2, extractModel fenSample
        (.withMasks sampleF64Input sampleMaskIn sampleF64Output sampleMaskOut
          (0, 0) (0, 1))
      = .ok (.returnedNone, s2)) := by
  have hnz : (((0 : ℝ), (1 : ℝ)).1 - ((0 : ℝ), (0 : ℝ)).1) ^ 2
      + (((0 : ℝ), (1 : ℝ)).2 - ((0 : ℝ), (0 : ℝ)).2) ^ 2 ≠ 0 := by norm_num
  have hcrop : matchesCropSize fenSample sampleF64Output := by decide
  have h := C2_output_form_type_dispatch fenSample sampleF64Input sampleMaskIn
    sampleF64Output sampleMaskOut (0, 0) (0, 1) rfl rfl
  refine ⟨rfl, rfl, rfl, rfl, rfl, rfl, rfl, Or.inr (Or.inr rfl), rfl, rfl,
    hcrop, hnz, ?_, ?_⟩
  · exact (h.1.2 rfl).2 (Or.inr (Or.inr rfl)) hcrop hnz
  · exact ((h.2 rfl rfl rfl rfl).2 rfl).2 (Or.inr (Or.inr rfl)) rfl rfl hcrop hnz

/-- Claim C3: for every configuration and every landmark pair whose observed
distance is zero (over the real-number model the only way it can be zero or
non-finite; in particular whenever right = left), the parameter derivation
fails with the degenerate-landmarks error, and no `extract` call using those
landmarks can succeed, so no output is produced. -/
theorem C3_degenerate_landmarks (s : FaceEyesNorm) (r l : Pt)
    (h : Real.sqrt ((l.1 - r.1) ^ 2 + (l.2 - r.2) ^ 2) = 0) :
    alignParams s r l = .error .degenerateLandmarks ∧
    (∀ (input output : PyArray) (res : ExtractOutcome × FaceEyesNorm),
        extractModel s (.withOutput input output r l) ≠ .ok res) ∧
    (∀ (input imask output omask : PyArray) (res : ExtractOutcome × FaceEyesNorm),
        extractModel s (.withMasks input imask output omask r l) ≠ .ok res) := by
  have hz : (l.1 - r.1) ^ 2 + (l.2 - r.2) ^ 2 = 0 := by
    have hle := Real.sqrt_eq_zero'.mp h
    nlinarith [sq_nonneg (l.1 - r.1), sq_nonneg (l.2 - r.2)]
  have ha : alignParams s r l = .error .degenerateLandmarks := by
    simp only [alignParams]
    rw [if_pos hz]
  refine ⟨ha, ?_, ?_⟩
  · intro input output res hok
    obtain ⟨out, s2⟩ := res
    have hcore := coreExtract_ok s output r l s2
      (pyWrap_ok _ out s2 (extractModel_withOutput_ok s input output r l _ hok))
    rw [ha] at hcore
    exact Except.noConfusion hcore
  · intro input imask output omask res hok
    obtain ⟨out, s2⟩ := res
    have hcore := coreExtractMasked_ok s input imask output omask r l s2
      (pyWrap_ok _ out s2 (extractModel_withMasks_ok s input imask output omask r l _ hok))
    rw [ha] at hcore
    exact Except.noConfusion hcore

/-- Claim C3 (witness): with both landmarks at the concrete point (5, 7) the
observed distance is zero and the derivation fails with the
degenerate-landmarks error. -/
theorem C3_witness :
    Real.sqrt ((((5 : ℝ), (7 : ℝ)).1 - ((5 : ℝ), (7 : ℝ)).1) ^ 2
        + (((5 : ℝ), (7 : ℝ)).2 - ((5 : ℝ), (7 : ℝ)).2) ^ 2) = 0 ∧
    alignParams fenSample ((5 : ℝ), (7 : ℝ)) ((5 : ℝ), (7 : ℝ))
      = .error .degenerateLandmarks := by
  have h : Real.sqrt ((((5 : ℝ), (7 : ℝ)).1 - ((5 : ℝ), (7 : ℝ)).1) ^ 2
      + (((5 : ℝ), (7 : ℝ)).2 - ((5 : ℝ), (7 : ℝ)).2) ^ 2) = 0 := by
    norm_num
  exact ⟨h, (C3_degenerate_landmarks fenSample _ _ h).1⟩

/-- The unnormalized kernel sum is positive: every entry is a positive
exponential and the grid always contains the center offset. -/
theorem gaussKernelSum_pos (ry rx : ℕ) (sy sx : ℝ) :
    0 < gaussKernelSum ry rx sy sx := by
  unfold gaussKernelSum
  have hne : ∀ r : ℕ, (Finset.Icc (-(r : ℤ)) (r : ℤ)).Nonempty := by
    intro r
    exact Finset.nonempty_Icc.mpr (by omega)
  refine Finset.sum_pos (fun i _ => ?_) (hne ry)
  exact Finset.sum_pos (fun j _ => Real.exp_pos _) (hne rx)

/-- Claim C4: for every valid configuration (positive sigmas, any radii),
the base unweighted kernel built by `computeKernel` is the grid whose entry
at offset `(i, j)` is proportional to
`exp(-(i^2/(2*sigma_y^2) + j^2/(2*sigma_x^2)))` — each entry times the
normalization constant recovers the Gaussian — and the grid over
`i ∈ [-radius_y, radius_y]`, `j ∈ [-radius_x, radius_x]` sums exactly
to 1. -/
theorem C4_base_kernel_normalized (ry rx : ℕ) (sy sx : ℝ)
    (hy : 0 < sy) (hx : 0 < sx) :
    (∑ i ∈ Finset.Icc (-(ry : ℤ)) (ry : ℤ),
        ∑ j ∈ Finset.Icc (-(rx : ℤ)) (rx : ℤ),
          computeKernel ry rx sy sx i j) = 1 ∧
    ∀ i j : ℤ,
      computeKernel ry rx sy sx i j * gaussKernelSum ry rx sy sx
        = gaussUnnormalized sy sx i j := by
  have hpos := gaussKernelSum_pos ry rx sy sx
  constructor
  · simp only [computeKernel, ← Finset.sum_div]
    exact div_self hpos.ne'
  · intro i j
    simp only [computeKernel]
    exact div_mul_cancel₀ _ hpos.ne'

/-- Claim C4 (witness): the spec's example, radii (1, 1) and sigmas
(sqrt 2, sqrt 2): the 3x3 grid sums exactly to 1 (so in particular within
1e-9). -/
theorem C4_witness :
    0 < Real.sqrt 2 ∧
    (∑ i ∈ Finset.Icc (-(1 : ℤ)) (1 : ℤ),
        ∑ j ∈ Finset.Icc (-(1 : ℤ)) (1 : ℤ),
          computeKernel 1 1 (Real.sqrt 2) (Real.sqrt 2) i j) = 1 := by
  have h2 : 0 < Real.sqrt 2 := Real.sqrt_pos.mpr (by norm_num)
  refine ⟨h2, ?_⟩
  have h := (C4_base_kernel_normalized 1 1 (Real.sqrt 2) (Real.sqrt 2) h2 h2).1
  simpa using h

/-- Claim C5 (counterexample): the claimed equivalence fails as soon as the
two target points are not horizontally aligned.  With crop size 64x64,
right target (0, 0) and left target (1, 0) (same column, different rows),
`|right - left| = 1` and the midpoint is (1/2, 0), but the two-point
constructor stores the eye angle pi/2 while the distance/center constructor
stores angle 0, so the two instances do not compare equal. -/
theorem C5_counterexample :
    ¬ feq (fromTwoPoints (64, 64) (0, 0) (1, 0))
        (fromDistanceCenter (64, 64) 1 (1 / 2, 0)) := by
  intro h
  have hang := h.2.2.1
  simp only [fromTwoPoints, fromDistanceCenter] at hang
  have e : atan2 ((1 : ℝ) - 0) ((0 : ℝ) - 0) = Real.pi / 2 := by
    unfold atan2
    rw [if_neg (by norm_num), if_neg (by norm_num), if_pos (by norm_num)]
  rw [e] at hang
  have := Real.pi_pos
  linarith

/-- Claim C5 (amended): the two construction forms yield equal instances
whenever the two target points lie on one horizontal line with the right
target at the smaller column (so the stored target angle is 0); this
includes the spec's concrete instance.  The original claim's universal
quantification over all target pairs fails: a vertical pair makes the
two-point constructor store the angle pi/2 while the distance/center
constructor stores angle 0. -/
theorem C5_horizontal_equivalence (size : ℤ × ℤ) (ry rx ly lx : ℝ)
    (hy : ry = ly) (hx : rx < lx) :
    feq (fromTwoPoints size (ry, rx) (ly, lx))
      (fromDistanceCenter size (Real.sqrt ((ly - ry) ^ 2 + (lx - rx) ^ 2))
        ((ry + ly) / 2, (rx + lx) / 2)) := by
  refine ⟨rfl, rfl, ?_, rfl⟩
  show atan2 (ly - ry) (lx - rx) = 0
  have h0 : ly - ry = 0 := by rw [hy]; ring
  have hpos : 0 < lx - rx := by linarith
  unfold atan2
  rw [if_pos hpos, h0, zero_div, Real.arctan_zero]

/-- Claim C5 (witness): the spec's concrete instance: crop size (64, 64),
right target (16, 24) and left target (16, 40) give the same instance as
eye distance 16 with eye center (16, 32). -/
theorem C5_witness :
    (16 : ℝ) = 16 ∧ (24 : ℝ) < 40 ∧
    feq (fromTwoPoints (64, 64) (16, 24) (16, 40))
      (fromDistanceCenter (64, 64) 16 (16, 32)) := by
  refine ⟨rfl, by norm_num, ?_⟩
  have h := C5_horizontal_equivalence (64, 64) 16 24 16 40 rfl (by norm_num)
  have e1 : Real.sqrt (((16 : ℝ) - 16) ^ 2 + ((40 : ℝ) - 24) ^ 2) = 16 := by
    rw [show ((16 : ℝ) - 16) ^ 2 + ((40 : ℝ) - 24) ^ 2 = 16 ^ 2 by norm_num]
    exact Real.sqrt_sq (by norm_num)
  rw [e1, show ((16 : ℝ) + 16) / 2 = 16 by norm_num,
    show ((24 : ℝ) + 40) / 2 = 32 by norm_num] at h
  exact h

/-- Claim C6: two `FaceEyesNorm` instances compare equal exactly when their
configured crop size, eyes distance, eyes angle and crop offset are
pairwise equal; the last-applied state does not enter the comparison, and
any successful `extract` call (which only rewrites the last-applied state)
leaves the result of comparing the instance with any other instance
unchanged, in both argument orders. -/
theorem C6_equality_configuration (a b : FaceEyesNorm) :
    (feq a b ↔ (a.cropSize = b.cropSize ∧ a.eyesDistance = b.eyesDistance ∧
      a.eyesAngle = b.eyesAngle ∧ a.cropOffset = b.cropOffset)) ∧
    (∀ (call : ExtractArgs) (out : ExtractOutcome) (a2 : FaceEyesNorm),
      extractModel a call = .ok (out, a2) →
        ((feq a2 b ↔ feq a b) ∧ (feq b a2 ↔ feq b a))) := by
  refine ⟨Iff.rfl, ?_⟩
  intro call out a2 h
  obtain ⟨h1, h2, h3, h4⟩ := extractModel_ok_config a call out a2 h
  unfold feq
  rw [h1, h2, h3, h4]
  exact ⟨Iff.rfl, Iff.rfl⟩

/-- Claim C6 (witness): a concrete successful `extract` call on `fenSample`
with landmarks (0, 0) and (0, 1) produces the updated state
`fenAfterSample`, and comparing the updated state against `fenSample`
agrees with comparing the original state against `fenSample`. -/
theorem C6_witness :
    extractModel fenSample (.withOutput sampleF64Input sampleF64Output (0, 0) (0, 1))
      = .ok (.returnedNone, fenAfterSample) ∧
    (feq fenAfterSample fenSample ↔ feq fenSample fenSample) := by
  have hcrop : matchesCropSize fenSample sampleF64Output := by decide
  have h : extractModel fenSample
      (.withOutput sampleF64Input sampleF64Output (0, 0) (0, 1))
      = .ok (.returnedNone, fenAfterSample) := by
    simp only [extractModel]
    rw [if_neg (by simp [sampleF64Input]), if_neg (by simp [sampleF64Output]),
      if_neg (by simp [sampleF64Output]),
      if_pos (show supportedType sampleF64Input.typeNum from Or.inr (Or.inr rfl))]
    unfold coreExtract
    rw [if_neg (not_not.mpr hcrop)]
    simp only [alignParams]
    rw [if_neg (by norm_num)]
    have e1 : atan2 (((0 : ℝ), (1 : ℝ)).1 - ((0 : ℝ), (0 : ℝ)).1)
        (((0 : ℝ), (1 : ℝ)).2 - ((0 : ℝ), (0 : ℝ)).2) = 0 := by
      unfold atan2
      rw [if_pos (by norm_num)]
      norm_num
    rw [e1]
    simp only [pyWrap, fenAfterSample, fenSample, fromDistanceCenter]
    norm_num [Real.sqrt_one]
  exact ⟨h, ((C6_equality_configuration fenSample fenSample).2 _ _ _ h).1⟩

/-- Claim C7: after each of the six radius/sigma setters the stored
unweighted kernel equals the kernel recomputed from the full current
parameter set, and `setConvBorder` changes only the border type, leaving the
stored kernel and every other parameter untouched (no recomputation). -/
theorem C7_setters_recompute_kernel (s : WeightedGaussian) (v : ℕ) (w : ℝ)
    (p : ℕ × ℕ) (q : ℝ × ℝ) (b : BorderType) :
    ((setRadiusY s v).kernel = computeKernel (setRadiusY s v).radius_y
        (setRadiusY s v).radius_x (setRadiusY s v).sigma_y (setRadiusY s v).sigma_x) ∧
    ((setRadiusX s v).kernel = computeKernel (setRadiusX s v).radius_y
        (setRadiusX s v).radius_x (setRadiusX s v).sigma_y (setRadiusX s v).sigma_x) ∧
    ((setRadius s p).kernel = computeKernel (setRadius s p).radius_y
        (setRadius s p).radius_x (setRadius s p).sigma_y (setRadius s p).sigma_x) ∧
    ((setSigmaY s w).kernel = computeKernel (setSigmaY s w).radius_y
        (setSigmaY s w).radius_x (setSigmaY s w).sigma_y (setSigmaY s w).sigma_x) ∧
    ((setSigmaX s w).kernel = computeKernel (setSigmaX s w).radius_y
        (setSigmaX s w).radius_x (setSigmaX s w).sigma_y (setSigmaX s w).sigma_x) ∧
    ((setSigma s q).kernel = computeKernel (setSigma s q).radius_y
        (setSigma s q).radius_x (setSigma s q).sigma_y (setSigma s q).sigma_x) ∧
    ((setConvBorder s b).kernel = s.kernel) ∧
    ((setConvBorder s b).radius_y = s.radius_y) ∧
    ((setConvBorder s b).radius_x = s.radius_x) ∧
    ((setConvBorder s b).sigma_y = s.sigma_y) ∧
    ((setConvBorder s b).sigma_x = s.sigma_x) ∧
    ((setConvBorder s b).conv_border = b) :=
  ⟨rfl, rfl, rfl, rfl, rfl, rfl, rfl, rfl, rfl, rfl, rfl, rfl⟩

/-- Claim C8: the 3D `filter` overload succeeds exactly when the plane
counts of source and destination match, in which case every destination
plane `p` holds exactly the result of the 2D filter applied to source plane
`p` (planes beyond the loop bound keep the destination's data); on a plane
count mismatch it fails with the shape-mismatch error before any plane is
written.  The 2D core, implemented outside the provided sources, is an
arbitrary per-plane transform. -/
theorem C8_filter3_planewise (core : Img2 → Img2) (src dst : Img3) :
    (src.planes = dst.planes →
      ∃ out, filter3 core src dst = .ok out ∧
        (∀ p y x, p < dst.planes →
          out.data p y x = (core (slicePlane src p)).data y x) ∧
        (∀ p y x, dst.planes ≤ p → out.data p y x = dst.data p y x)) ∧
    (src.planes ≠ dst.planes → filter3 core src dst = .error .shapeMismatch) := by
  constructor
  · intro h
    refine ⟨writePlanes core src dst.planes dst, ?_, ?_, ?_⟩
    · simp [filter3, h]
    · intro p y x hp
      exact (writePlanes_data core src dst p y x dst.planes).1 hp
    · intro p y x hp
      exact (writePlanes_data core src dst p y x dst.planes).2 hp
  · intro h
    simp [filter3, h]

/-- A concrete 2-plane stack used to instantiate the 3D filter. -/
def img3Src : Img3 := ⟨2, 3, 4, fun p y x => (p : ℝ) + y + x⟩

/-- A concrete 2-plane destination buffer. -/
def img3Dst : Img3 := ⟨2, 3, 4, fun _ _ _ => 0⟩

/-- Claim C8 (witness): the 3D filter instantiated with the identity
per-plane transform on a concrete 2-plane stack: the plane counts match and
each output plane is the (identity-)filtered source plane. -/
theorem C8_witness :
    img3Src.planes = img3Dst.planes ∧
    ∃ out, filter3 (fun t => t) img3Src img3Dst = .ok out ∧
      (∀ p y x, p < img3Dst.planes →
        out.data p y x = ((fun t => t) (slicePlane img3Src p)).data y x) ∧
      (∀ p y x, img3Dst.planes ≤ p → out.data p y x = img3Dst.data p y x) :=
  ⟨rfl, (C8_filter3_planewise (fun t => t) img3Src img3Dst).1 rfl⟩

/-- Claim C9 (counterexample): `setSigmaY` performs no validation: applied
to the default-constructed filter with the non-positive sigma 0, it raises
no error and changes the stored state — the new `sigma_y` is 0, which
differs from the previous value `sqrt 2`. -/
theorem C9_counterexample :
    (setSigmaY wgDefault 0).sigma_y = 0 ∧
    wgDefault.sigma_y ≠ 0 ∧
    (setSigmaY wgDefault 0).sigma_y ≠ wgDefault.sigma_y := by
  have hne : wgDefault.sigma_y ≠ 0 := by
    show Real.sqrt 2 ≠ 0
    exact Real.sqrt_ne_zero'.mpr (by norm_num)
  exact ⟨rfl, hne, by simpa using hne.symm⟩

/-- Claim C9 (amended): the sigma setters of `WeightedGaussian` accept any
value, including non-positive ones: they overwrite the stored sigma with the
given value unconditionally and recompute the kernel from the new parameter
set; no `InvalidConfigurationError` is raised and the previous configuration
is not retained. -/
theorem C9_sigma_setters_unvalidated (s : WeightedGaussian) (v : ℝ) (q : ℝ × ℝ) :
    setSigmaY s v
      = { s with
          sigma_y := v
          kernel := computeKernel s.radius_y s.radius_x v s.sigma_x } ∧
    setSigmaX s v
      = { s with
          sigma_x := v
          kernel := computeKernel s.radius_y s.radius_x s.sigma_y v } ∧
    setSigma s q
      = { s with
          sigma_y := q.1
          sigma_x := q.2
          kernel := computeKernel s.radius_y s.radius_x q.1 q.2 } :=
  ⟨rfl, rfl, rfl⟩

/-- Claim C10: comparing a `FaceEyesNorm` instance with any object that is
not a `FaceEyesNorm` instance raises a TypeError for every comparison
operator (in particular for `==` and `!=`); the comparison never silently
produces a true/false result for a foreign object. -/
theorem C10_foreign_comparison_type_error (self : FaceEyesNorm) (other : PyObj)
    (op : CompOp) (h : ∀ f, other ≠ .fenObj f) :
    richCompare self other op = .error .typeError := by
  cases other with
  | fenObj f => exact absurd rfl (h f)
  | otherObj t => rfl

/-- Claim C10 (witness): comparing `fenSample` for equality with a concrete
foreign object yields the TypeError. -/
theorem C10_witness :
    (∀ f, PyObj.otherObj 0 ≠ .fenObj f) ∧
    richCompare fenSample (.otherObj 0) .opEq = .error .typeError := by
  have h : ∀ f, PyObj.otherObj 0 ≠ .fenObj f := fun f hf => PyObj.noConfusion hf
  exact ⟨h, C10_foreign_comparison_type_error fenSample (.otherObj 0) .opEq h⟩

end BobIpBase
